import Mathlib

/-!
Shallow embedding of the ScopeBlind Gateway worker (src/index.ts).

The worker is a single request handler. All of its branching is pure once
the two awaited network calls are treated as oracles: the verifier call
(which either replies with an HTTP status and a JSON body, or throws) and
the origin call (which either replies or throws). We model the handler as
a function of the environment bindings, the incoming request, and those
two oracles, returning the response together with an observable trace:
the policy decision taken, the telemetry events emitted, whether the
verifier was called, and the outbound origin request (if any).

JavaScript string falsiness (null and the empty string) is modelled
explicitly, since the source uses `||` and `if (v)` on strings.
-/

namespace ScopeBlind

/-- Environment bindings (interface `Env`, src/index.ts lines 11-17).
An unset `PROTECTED_METHODS` binding is modelled as the empty string,
which is JS-falsy exactly like `undefined`. -/
structure Env where
  ORIGIN_URL : String
  SCOPEBLIND_VERIFIER_URL : String
  SHADOW_MODE : String
  PROTECTED_METHODS : String
  FALLBACK_MODE : String
deriving Repr, DecidableEq

/-- JS `a || b` on strings: the empty string is falsy. -/
def jsOrStr (a b : String) : String := if a = "" then b else a

/-- JS `a || b` where `a` is `string | null` and `b` a string. -/
def jsOr (a : Option String) (b : String) : String :=
  match a with
  | none => b
  | some s => if s = "" then b else s

/-- JS `a || b` where both are `string | null` (used for the proof header
chain, line 75-77). -/
def jsOrOpt (a b : Option String) : Option String :=
  match a with
  | none => b
  | some s => if s = "" then b else some s

/-- JS truthiness of a `string | null` value (`if (!proof)`, line 92;
`if (v)`, line 231). -/
def strTruthy (a : Option String) : Bool :=
  match a with
  | none => false
  | some s => s ≠ ""

/-- Headers are an association list of name-value pairs with
case-insensitive names, modelling the Fetch `Headers` class. -/
abbrev Headers := List (String × String)

/-- ASCII lowercasing of a string, written over its character list so
that it evaluates inside the kernel (`String.toLower` is extensionally
the same map of `Char.toLower`). -/
def lowerStr (s : String) : String := String.mk (s.data.map Char.toLower)

/-- ASCII uppercasing, written over the character list
(`m.toUpperCase()` in the source; header values and methods are ASCII). -/
def upperStr (s : String) : String := String.mk (s.data.map Char.toUpper)

/-- Whitespace trimming of a character list (`m.trim()` in the source). -/
def trimChars (l : List Char) : List Char :=
  ((l.dropWhile Char.isWhitespace).reverse.dropWhile Char.isWhitespace).reverse

/-- Splitting a character list on a separator character, modelling
`s.split(",")`: splitting the empty string yields one empty chunk, and
adjacent separators yield empty chunks. -/
def splitOnChar (sep : Char) : List Char → List (List Char)
  | [] => [[]]
  | c :: rest =>
      if c = sep then [] :: splitOnChar sep rest
      else
        match splitOnChar sep rest with
        | [] => [[c]]
        | h :: t => (c :: h) :: t

/-- Case-insensitive header-name comparison. -/
def keyMatches (k k' : String) : Bool := lowerStr k == lowerStr k'

/-- Model of `Headers.get`: first entry whose name matches. -/
def hget (hs : Headers) (k : String) : Option String :=
  (hs.find? (fun p => keyMatches p.1 k)).map Prod.snd

/-- Model of `Headers.set`: remove entries with the name, add the pair. -/
def hset (hs : Headers) (k v : String) : Headers :=
  hs.filter (fun p => !(keyMatches p.1 k)) ++ [(k, v)]

/-- Model of `Headers.delete`. -/
def hdelete (hs : Headers) (k : String) : Headers :=
  hs.filter (fun p => !(keyMatches p.1 k))

/-- Incoming request: method, pathname and headers. The body is opaque
and passed through untouched by the worker, so it is not modelled. -/
structure Request where
  method : String
  pathname : String
  headers : Headers
deriving Repr, DecidableEq

/-- Parsed verifier response body (interface `VerifyResult`, lines 19-24).
`verified` is `none` when the JSON body has no `verified` field; JS
truthiness of the field is `verified = some true`. `receipt` is unused by
the worker and omitted. -/
structure VerifyResult where
  verified : Option Bool
  remaining : Option Int
  error : Option String
deriving Repr, DecidableEq

/-- JS truthiness of the optional boolean `verified` field. -/
def truthy (b : Option Bool) : Bool :=
  match b with
  | some true => true
  | _ => false

/-- Result of `verifyRes.json()` (line 134): a parsed body, or a thrown
parse error with its message. -/
inductive JsonParse where
  | parsed (body : VerifyResult)
  | thrown (msg : String)
deriving Repr, DecidableEq

/-- Oracle for the verifier fetch (lines 125-134): either a reply carrying
the HTTP `ok` flag, the status, and the result of `json()` (which itself
may throw), or a network failure whose message is the thrown error
message. -/
inductive VerifierResponse where
  | reply (ok : Bool) (status : Nat) (body : JsonParse)
  | netFail (msg : String)
deriving Repr, DecidableEq

/-- Spec data model: tagged `VerificationOutcome`. -/
inductive Outcome where
  | Verified (remaining : Option Int)
  | Rejected (reason : String)
  | Unreachable (cause : String)
deriving Repr, DecidableEq

/-- Outcome classification realised by lines 123-194: the catch clause
(network failure or `json()` failure) yields `Unreachable` with the error
message; a parsed body with `!verifyRes.ok || !verifyResult.verified`
yields `Rejected` whose reason is the value logged at line 142,
`verifyResult.error || "unknown"`; otherwise `Verified` with
`body.remaining`. -/
def mapVerifierResponse : VerifierResponse → Outcome
  | .netFail msg => .Unreachable msg
  | .reply _ _ (.thrown msg) => .Unreachable msg
  | .reply ok _ (.parsed body) =>
      if !ok || !(truthy body.verified) then .Rejected (jsOr body.error "unknown")
      else .Verified body.remaining

/-- Raw `error` field of the verifier body, when a body was parsed. -/
def rawBodyError : VerifierResponse → Option String
  | .reply _ _ (.parsed body) => body.error
  | _ => none

/-- Oracle for the origin fetch (lines 238-245): status and headers of the
origin reply. The relayed body is opaque. -/
structure OriginResponse where
  status : Nat
  headers : Headers
deriving Repr, DecidableEq

/-- Result of the origin fetch: a reply, or a thrown network error. -/
inductive FetchOutcome where
  | ok (resp : OriginResponse)
  | err (msg : String)
deriving Repr, DecidableEq

/-- Response bodies the worker can produce. -/
inductive Body where
  | empty
  | errorJson (error : String) (message : String) (details : Option String)
  | healthJson (okFlag : Bool) (mode origin verifier : String)
  | originBody
deriving Repr, DecidableEq

/-- Response returned to the caller. -/
structure Response where
  status : Nat
  headers : Headers
  body : Body
deriving Repr, DecidableEq

/-- Telemetry event logged by `logShadow` (lines 27-34): the action tag
and the branch-specific fields we need (`error`, `remaining`); the
timestamp, ip and verifier status fields are not modelled. -/
structure TelemetryEvent where
  action : String
  method : String
  path : String
  error : Option String
  remaining : Option Int
deriving Repr, DecidableEq

/-- Spec data model: tagged `Decision` of the policy engine. A forward
records the metadata headers handed to `forwardToOrigin`; a reject records
status, machine-readable error code and the optional `details` field. -/
inductive Decision where
  | Forward (metadataHeaders : List (String × String))
  | Reject (status : Nat) (errorCode : String) (details : Option String)
deriving Repr, DecidableEq

/-- Outbound request sent to the origin (method and headers; path, query
and body are passed through unchanged and not modelled). -/
structure OutboundRequest where
  method : String
  headers : Headers
deriving Repr, DecidableEq

/-- Observable trace of one invocation of the handler. -/
structure Trace where
  decision : Option Decision
  response : Response
  telemetry : List TelemetryEvent
  verifierCalled : Bool
  originRequest : Option OutboundRequest
deriving Repr, DecidableEq

/-- Helper `corsHeaders` (lines 265-270). -/
def corsHeaders (req : Request) : Headers :=
  [("Content-Type", "application/json"),
   ("Access-Control-Allow-Origin", jsOr (hget req.headers "Origin") "*")]

/-- Configured protected-method list (lines 40-42): split the binding (or
the default when the binding is falsy) on commas, trim and uppercase. -/
def parseProtectedMethods (s : String) : List String :=
  (splitOnChar ',' (jsOrStr s "POST,PUT,DELETE,PATCH").data).map
    (fun cs => String.mk ((trimChars cs).map Char.toUpper))

/-- Classifier test `protectedMethods.includes(request.method)`
(line 74): exact string membership. -/
def needsProof (protectedMethods : List String) (method : String) : Bool :=
  protectedMethods.contains method

/-- Shadow-mode flag (line 39): exact comparison with `"true"`. -/
def isShadow (env : Env) : Bool := env.SHADOW_MODE == "true"

/-- Mode string used in metadata headers and the health body. -/
def modeStr (shadow : Bool) : String := if shadow then "shadow" else "enforce"

/-- Value of the `X-ScopeBlind-Remaining` header,
`String(verifyResult.remaining ?? "")` (line 208). -/
def remainingStr (r : Option Int) : String :=
  match r with
  | some n => toString n
  | none => ""

/-- Proof token extraction (lines 75-77): `headers.get("X-Proof") ||
headers.get("X-ScopeBlind-Proof")`. -/
def proofOf (req : Request) : Option String :=
  jsOrOpt (hget req.headers "X-Proof") (hget req.headers "X-ScopeBlind-Proof")

/-- Headers of the outbound origin request (lines 228-235): copy the
request headers, `set` each metadata header whose value is truthy, then
`delete` the two proof header names. -/
def forwardHeaders (reqHeaders : Headers) (extras : List (String × String)) : Headers :=
  hdelete
    (hdelete
      (extras.foldl (fun acc kv => if kv.2 ≠ "" then hset acc kv.1 kv.2 else acc) reqHeaders)
      "X-Proof")
    "X-ScopeBlind-Proof"

/-- Outbound origin request built by `forwardToOrigin` (lines 238-244):
same method, headers rewritten by `forwardHeaders`. -/
def outboundOf (req : Request) (extras : List (String × String)) : OutboundRequest :=
  ⟨req.method, forwardHeaders req.headers extras⟩

/-- Response produced by `forwardToOrigin` (lines 237-262): relay the
origin reply with the permissive CORS header set, or answer 502
`upstream_error` when the origin fetch throws. Note this does not depend
on the metadata headers. -/
def relayResponse (req : Request) (origin : FetchOutcome) : Response :=
  match origin with
  | .ok r =>
      ⟨r.status,
       hset r.headers "Access-Control-Allow-Origin" (jsOr (hget req.headers "Origin") "*"),
       .originBody⟩
  | .err _ =>
      ⟨502, corsHeaders req, .errorJson "upstream_error" "Failed to reach backend." none⟩

/-- Helper `forwardToOrigin` (lines 217-263): the outbound request sent to
the origin together with the response relayed to the caller. -/
def forwardToOrigin (req : Request) (extras : List (String × String))
    (origin : FetchOutcome) : OutboundRequest × Response :=
  (outboundOf req extras, relayResponse req origin)

/-- Verifier-unreachable branch (catch clause, lines 167-194): log
`verifier_error`; with `FALLBACK_MODE === "closed"` and not shadow,
reject 503 `verification_unavailable`; otherwise forward with
fallback-allow metadata. -/
def handleUnreachable (env : Env) (req : Request) (msg : String)
    (origin : FetchOutcome) : Trace :=
  let ev : TelemetryEvent := ⟨"verifier_error", req.method, req.pathname, some msg, none⟩
  if env.FALLBACK_MODE == "closed" && !(isShadow env) then
    ⟨some (.Reject 503 "verification_unavailable" none),
     ⟨503, corsHeaders req,
      .errorJson "verification_unavailable" "Unable to verify request. Try again later." none⟩,
     [ev], true, none⟩
  else
    let extras := [("X-ScopeBlind-Mode", modeStr (isShadow env)),
                   ("X-ScopeBlind-Verified", "error"),
                   ("X-ScopeBlind-Action", "fallback-allow")]
    ⟨some (.Forward extras), (forwardToOrigin req extras origin).2,
     [ev], true, some (forwardToOrigin req extras origin).1⟩

/-- The worker `fetch` handler (lines 36-211), with the two awaited
network calls passed in as oracles. -/
def handle (env : Env) (req : Request)
    (verifier : VerifierResponse) (origin : FetchOutcome) : Trace :=
  -- 1. CORS preflight (lines 47-57)
  if req.method = "OPTIONS" then
    ⟨none,
     ⟨200,
      [("Access-Control-Allow-Origin", jsOr (hget req.headers "Origin") "*"),
       ("Access-Control-Allow-Methods", "GET, POST, PUT, DELETE, PATCH, OPTIONS"),
       ("Access-Control-Allow-Headers", "Content-Type, Authorization, X-Proof, X-ScopeBlind-Proof"),
       ("Access-Control-Max-Age", "86400")],
      .empty⟩,
     [], false, none⟩
  -- 2. Health check (lines 62-69)
  else if req.pathname = "/_scopeblind/health" then
    ⟨none,
     ⟨200, [("Content-Type", "application/json")],
      .healthJson true (modeStr (isShadow env)) env.ORIGIN_URL env.SCOPEBLIND_VERIFIER_URL⟩,
     [], false, none⟩
  -- 3. Unprotected methods forward directly (lines 80-85)
  else if !(needsProof (parseProtectedMethods env.PROTECTED_METHODS) req.method) then
    let extras := [("X-ScopeBlind-Mode", modeStr (isShadow env)),
                   ("X-ScopeBlind-Verified", "skipped")]
    ⟨some (.Forward extras), (forwardToOrigin req extras origin).2,
     [], false, some (forwardToOrigin req extras origin).1⟩
  -- 4. No proof provided (lines 92-120)
  else if !(strTruthy (proofOf req)) then
    let ev : TelemetryEvent := ⟨"no_proof", req.method, req.pathname, none, none⟩
    if isShadow env then
      let extras := [("X-ScopeBlind-Mode", "shadow"),
                     ("X-ScopeBlind-Verified", "missing"),
                     ("X-ScopeBlind-Action", "would-block")]
      ⟨some (.Forward extras), (forwardToOrigin req extras origin).2,
       [ev], false, some (forwardToOrigin req extras origin).1⟩
    else
      ⟨some (.Reject 401 "proof_required" none),
       ⟨401, corsHeaders req,
        .errorJson "proof_required"
          "This endpoint requires a ScopeBlind proof. Include it in the X-Proof header." none⟩,
       [ev], false, none⟩
  else
    -- Proof provided: call the verifier (lines 123-209)
    match verifier with
    | .netFail msg => handleUnreachable env req msg origin
    | .reply _ _ (.thrown msg) => handleUnreachable env req msg origin
    | .reply ok _st (.parsed body) =>
        if !ok || !(truthy body.verified) then
          -- Verification failed (lines 136-165)
          let ev : TelemetryEvent :=
            ⟨"verify_failed", req.method, req.pathname, some (jsOr body.error "unknown"), none⟩
          if isShadow env then
            let extras := [("X-ScopeBlind-Mode", "shadow"),
                           ("X-ScopeBlind-Verified", "failed"),
                           ("X-ScopeBlind-Action", "would-block"),
                           ("X-ScopeBlind-Error", jsOr body.error "verification_failed")]
            ⟨some (.Forward extras), (forwardToOrigin req extras origin).2,
             [ev], true, some (forwardToOrigin req extras origin).1⟩
          else
            ⟨some (.Reject 429 "rate_limited" body.error),
             ⟨429, corsHeaders req,
              .errorJson "rate_limited" "Request quota exceeded or proof invalid." body.error⟩,
             [ev], true, none⟩
        else
          -- Verification passed (lines 199-209)
          let ev : TelemetryEvent :=
            ⟨"verified", req.method, req.pathname, none, body.remaining⟩
          let extras := [("X-ScopeBlind-Mode", modeStr (isShadow env)),
                         ("X-ScopeBlind-Verified", "true"),
                         ("X-ScopeBlind-Remaining", remainingStr body.remaining)]
          ⟨some (.Forward extras), (forwardToOrigin req extras origin).2,
           [ev], true, some (forwardToOrigin req extras origin).1⟩

/-! Header lemmas -/

theorem keyMatches_refl (k : String) : keyMatches k k = true := by
  simp [keyMatches]

theorem keyMatches_symm (a b : String) : keyMatches a b = keyMatches b a := by
  simp only [keyMatches]
  by_cases h : lowerStr a = lowerStr b
  · rw [h]
  · rw [beq_eq_false_iff_ne.mpr h, beq_eq_false_iff_ne.mpr (fun hc => h hc.symm)]

theorem keyMatches_trans {a b c : String} (h1 : keyMatches a b = true)
    (h2 : keyMatches b c = true) : keyMatches a c = true := by
  simp only [keyMatches, beq_iff_eq] at *
  exact h1.trans h2

theorem find?_filter_keyMatches (hs : Headers) (k k' : String) :
    List.find? (fun p => keyMatches p.1 k') (List.filter (fun p => !(keyMatches p.1 k)) hs) =
      if keyMatches k' k = true then none
      else List.find? (fun p => keyMatches p.1 k') hs := by
  induction hs with
  | nil => simp
  | cons a l ih =>
    by_cases hm : keyMatches a.1 k = true
    · rw [List.filter_cons_of_neg (by simp [hm])]
      by_cases h : keyMatches k' k = true
      · rw [ih, if_pos h, if_pos h]
      · have hpa : keyMatches a.1 k' = false := by
          rw [Bool.eq_false_iff]
          intro hc
          exact h (keyMatches_trans ((keyMatches_symm k' a.1) ▸ hc) hm)
        rw [ih, if_neg h, if_neg h]
        simp [List.find?_cons, hpa]
    · have hm' : keyMatches a.1 k = false := Bool.eq_false_iff.mpr hm
      rw [List.filter_cons_of_pos (by simp [hm'])]
      by_cases hpa : keyMatches a.1 k' = true
      · have h : keyMatches k' k = false := by
          rw [Bool.eq_false_iff]
          intro hc
          exact hm (keyMatches_trans ((keyMatches_symm k' a.1) ▸ hpa) hc)
        simp [List.find?_cons, hpa, h]
      · have hpa' : keyMatches a.1 k' = false := Bool.eq_false_iff.mpr hpa
        simp only [List.find?_cons, hpa']
        rw [ih]

theorem hget_hdelete (hs : Headers) (k k' : String) :
    hget (hdelete hs k) k' = if keyMatches k' k = true then none else hget hs k' := by
  unfold hget hdelete
  rw [find?_filter_keyMatches]
  by_cases h : keyMatches k' k = true
  · rw [if_pos h, if_pos h]
    rfl
  · rw [if_neg h, if_neg h]

theorem hget_hset (hs : Headers) (k v k' : String) :
    hget (hset hs k v) k' = if keyMatches k' k = true then some v else hget hs k' := by
  unfold hget hset
  rw [List.find?_append, find?_filter_keyMatches]
  by_cases h : keyMatches k' k = true
  · have h2 : keyMatches k k' = true := (keyMatches_symm k k') ▸ h
    rw [if_pos h, if_pos h]
    simp [List.find?, h2]
  · have h2 : ¬ keyMatches k k' = true := fun hc => h ((keyMatches_symm k' k) ▸ hc)
    rw [if_neg h, if_neg h]
    have : List.find? (fun p => keyMatches p.1 k') [(k, v)] = none := by
      simp [List.find?, h2]
    rw [this]
    cases List.find? (fun p => keyMatches p.1 k') hs <;> rfl

theorem hget_foldl_set (extras : List (String × String)) (hs : Headers) (k : String) :
    hget (extras.foldl (fun acc kv => if kv.2 ≠ "" then hset acc kv.1 kv.2 else acc) hs) k =
      match extras.reverse.find? (fun p => keyMatches p.1 k && p.2 != "") with
      | some p => some p.2
      | none => hget hs k := by
  induction extras generalizing hs with
  | nil => simp
  | cons a l ih =>
    rw [List.foldl_cons, ih, List.reverse_cons, List.find?_append]
    cases hf : l.reverse.find? (fun p => keyMatches p.1 k && p.2 != "") with
    | some p => simp [Option.or]
    | none =>
      simp only [Option.none_or]
      by_cases hv : a.2 = ""
      · rw [if_neg (by simp [hv])]
        have hfa : List.find? (fun p => keyMatches p.1 k && p.2 != "") [a] = none := by
          simp [List.find?, hv]
        rw [hfa]
      · rw [if_pos hv, hget_hset]
        by_cases hk : keyMatches a.1 k = true
        · have hk' : keyMatches k a.1 = true := (keyMatches_symm k a.1) ▸ hk
          have hbne : (a.2 != "") = true := by
            simp [bne_iff_ne, hv]
          have hfa : List.find? (fun p => keyMatches p.1 k && p.2 != "") [a] = some a := by
            simp [List.find?, hk, hbne]
          rw [hfa, if_pos hk']
        · have hk0 : keyMatches a.1 k = false := Bool.eq_false_iff.mpr hk
          have hk' : ¬ keyMatches k a.1 = true := by
            rw [keyMatches_symm]
            exact hk
          have hfa : List.find? (fun p => keyMatches p.1 k && p.2 != "") [a] = none := by
            simp [List.find?, hk0]
          rw [hfa, if_neg hk']

theorem hget_forwardHeaders (hs : Headers) (extras : List (String × String)) (k : String) :
    hget (forwardHeaders hs extras) k =
      if (keyMatches k "X-Proof" || keyMatches k "X-ScopeBlind-Proof") = true then none
      else match extras.reverse.find? (fun p => keyMatches p.1 k && p.2 != "") with
        | some p => some p.2
        | none => hget hs k := by
  unfold forwardHeaders
  rw [hget_hdelete]
  by_cases h2 : keyMatches k "X-ScopeBlind-Proof" = true
  · rw [if_pos h2, if_pos (by simp [h2])]
  · rw [if_neg h2, hget_hdelete]
    by_cases h1 : keyMatches k "X-Proof" = true
    · rw [if_pos h1, if_pos (by simp [h1])]
    · rw [if_neg h1, hget_foldl_set,
        if_neg (by simp [Bool.eq_false_iff.mpr h1, Bool.eq_false_iff.mpr h2])]

/-! Structural case lemma: every invocation either answers directly (no
origin call) or forwards, and every forwarded response is the relay of
the origin outcome. -/

theorem handle_cases (env : Env) (req : Request) (v : VerifierResponse) (o : FetchOutcome) :
    (handle env req v o).originRequest = none ∨
    ((∃ extras, (handle env req v o).originRequest = some (outboundOf req extras)) ∧
      (handle env req v o).response = relayResponse req o) := by
  by_cases c1 : req.method = "OPTIONS"
  · left
    simp [handle, c1]
  by_cases c2 : req.pathname = "/_scopeblind/health"
  · left
    simp [handle, c1, c2]
  by_cases c3 : needsProof (parseProtectedMethods env.PROTECTED_METHODS) req.method = true
  case neg =>
    have c3' := Bool.eq_false_iff.mpr c3
    right
    exact ⟨⟨[("X-ScopeBlind-Mode", modeStr (isShadow env)), ("X-ScopeBlind-Verified", "skipped")],
        by simp [handle, c1, c2, c3', forwardToOrigin]⟩,
      by simp [handle, c1, c2, c3', forwardToOrigin]⟩
  by_cases c4 : strTruthy (proofOf req) = true
  case neg =>
    have c4' := Bool.eq_false_iff.mpr c4
    by_cases c5 : isShadow env = true
    · right
      exact ⟨⟨[("X-ScopeBlind-Mode", "shadow"), ("X-ScopeBlind-Verified", "missing"),
          ("X-ScopeBlind-Action", "would-block")],
          by simp [handle, c1, c2, c3, c4', c5, forwardToOrigin]⟩,
        by simp [handle, c1, c2, c3, c4', c5, forwardToOrigin]⟩
    · left
      have c5' := Bool.eq_false_iff.mpr c5
      simp [handle, c1, c2, c3, c4', c5']
  cases v with
  | netFail msg =>
    by_cases c6 : (env.FALLBACK_MODE == "closed" && !(isShadow env)) = true
    · left
      simp [handle, handleUnreachable, c1, c2, c3, c4, c6]
    · have c6' := Bool.eq_false_iff.mpr c6
      right
      exact ⟨⟨[("X-ScopeBlind-Mode", modeStr (isShadow env)), ("X-ScopeBlind-Verified", "error"),
          ("X-ScopeBlind-Action", "fallback-allow")],
          by simp [handle, handleUnreachable, c1, c2, c3, c4, c6', forwardToOrigin]⟩,
        by simp [handle, handleUnreachable, c1, c2, c3, c4, c6', forwardToOrigin]⟩
  | reply ok st body =>
    cases body with
    | thrown msg =>
      by_cases c6 : (env.FALLBACK_MODE == "closed" && !(isShadow env)) = true
      · left
        simp [handle, handleUnreachable, c1, c2, c3, c4, c6]
      · have c6' := Bool.eq_false_iff.mpr c6
        right
        exact ⟨⟨[("X-ScopeBlind-Mode", modeStr (isShadow env)), ("X-ScopeBlind-Verified", "error"),
            ("X-ScopeBlind-Action", "fallback-allow")],
            by simp [handle, handleUnreachable, c1, c2, c3, c4, c6', forwardToOrigin]⟩,
          by simp [handle, handleUnreachable, c1, c2, c3, c4, c6', forwardToOrigin]⟩
    | parsed b =>
      by_cases c7 : (!ok || !(truthy b.verified)) = true
      · by_cases c5 : isShadow env = true
        · right
          exact ⟨⟨[("X-ScopeBlind-Mode", "shadow"), ("X-ScopeBlind-Verified", "failed"),
              ("X-ScopeBlind-Action", "would-block"),
              ("X-ScopeBlind-Error", jsOr b.error "verification_failed")],
              by simp [handle, c1, c2, c3, c4, c5, c7, forwardToOrigin]⟩,
            by simp [handle, c1, c2, c3, c4, c5, c7, forwardToOrigin]⟩
        · left
          have c5' := Bool.eq_false_iff.mpr c5
          simp [handle, c1, c2, c3, c4, c5', c7]
      · have c7' := Bool.eq_false_iff.mpr c7
        right
        exact ⟨⟨[("X-ScopeBlind-Mode", modeStr (isShadow env)), ("X-ScopeBlind-Verified", "true"),
            ("X-ScopeBlind-Remaining", remainingStr b.remaining)],
            by simp [handle, c1, c2, c3, c4, c7', forwardToOrigin]⟩,
          by simp [handle, c1, c2, c3, c4, c7', forwardToOrigin]⟩

/-! Concrete fixtures used by witnesses and counterexamples. -/

/-- Shadow-mode environment with the default protected set. -/
def envShadow : Env :=
  ⟨"https://origin.example", "https://verify.example/v", "true", "", "open"⟩

/-- Enforce-mode, fail-open environment with the default protected set. -/
def envEnforce : Env :=
  ⟨"https://origin.example", "https://verify.example/v", "false", "", "open"⟩

/-- Enforce-mode, fail-closed environment with the default protected set. -/
def envClosed : Env :=
  ⟨"https://origin.example", "https://verify.example/v", "false", "", "closed"⟩

/-- Protected request carrying a proof header and an Origin header. -/
def reqProof : Request :=
  ⟨"POST", "/api/items", [("X-Proof", "tok"), ("Origin", "https://app.example")]⟩

/-- Protected request without a proof header. -/
def reqNoProof : Request := ⟨"POST", "/api/items", []⟩

/-- Verifier reply: HTTP success, verified true, no remaining field. -/
def vGood : VerifierResponse := .reply true 200 (.parsed ⟨some true, none, none⟩)

/-- Verifier reply: HTTP success, verified false, no error field. -/
def vFail : VerifierResponse := .reply true 200 (.parsed ⟨some false, none, none⟩)

/-- Verifier reply: HTTP success, verified false, error field "unknown". -/
def vFailNamed : VerifierResponse := .reply true 200 (.parsed ⟨some false, none, some "unknown"⟩)

/-- Verifier call that throws. -/
def vDown : VerifierResponse := .netFail "fetch failed"

/-- Origin reply used in examples. -/
def oGood : FetchOutcome := .ok ⟨200, [("Server", "demo")]⟩

/-! Claim theorems. -/

/-- C8: every OPTIONS request, regardless of path, is answered directly
with a bodyless 200 response carrying the four preflight headers (the
allow-origin echoing the request Origin header, or `*` when it is absent
or empty), with no verifier call, no origin call and no telemetry. -/
theorem options_preflight (env : Env) (req : Request) (v : VerifierResponse)
    (o : FetchOutcome) (h : req.method = "OPTIONS") :
    (handle env req v o).response =
      ⟨200,
       [("Access-Control-Allow-Origin", jsOr (hget req.headers "Origin") "*"),
        ("Access-Control-Allow-Methods", "GET, POST, PUT, DELETE, PATCH, OPTIONS"),
        ("Access-Control-Allow-Headers", "Content-Type, Authorization, X-Proof, X-ScopeBlind-Proof"),
        ("Access-Control-Max-Age", "86400")],
       .empty⟩ ∧
    (handle env req v o).verifierCalled = false ∧
    (handle env req v o).originRequest = none ∧
    (handle env req v o).telemetry = [] := by
  refine ⟨?_, ?_, ?_, ?_⟩ <;> simp [handle, h]

/-- C8 witness: the preflight theorem applied to `OPTIONS /anything`. -/
theorem options_preflight_witness :
    (handle envShadow ⟨"OPTIONS", "/anything", []⟩ vGood oGood).originRequest = none ∧
    (handle envShadow ⟨"OPTIONS", "/anything", []⟩ vGood oGood).verifierCalled = false :=
  ⟨(options_preflight envShadow ⟨"OPTIONS", "/anything", []⟩ vGood oGood rfl).2.2.1,
   (options_preflight envShadow ⟨"OPTIONS", "/anything", []⟩ vGood oGood rfl).2.1⟩

/-- C9: every non-OPTIONS request whose path is /_scopeblind/health is
answered with the health JSON (ok, mode, origin, verifier) no matter the
method or proof presence, with no verifier call, no telemetry and no
origin forward. -/
theorem health_bypass (env : Env) (req : Request) (v : VerifierResponse)
    (o : FetchOutcome) (h1 : ¬ req.method = "OPTIONS")
    (h2 : req.pathname = "/_scopeblind/health") :
    (handle env req v o).response =
      ⟨200, [("Content-Type", "application/json")],
       .healthJson true (modeStr (isShadow env)) env.ORIGIN_URL env.SCOPEBLIND_VERIFIER_URL⟩ ∧
    (handle env req v o).verifierCalled = false ∧
    (handle env req v o).telemetry = [] ∧
    (handle env req v o).originRequest = none := by
  refine ⟨?_, ?_, ?_, ?_⟩ <;> simp [handle, h1, h2]

/-- C9 witness: a POST to the health path, proof header present, still
gets the diagnostic without a verifier call. -/
theorem health_bypass_witness :
    (handle envEnforce ⟨"POST", "/_scopeblind/health", [("X-Proof", "tok")]⟩ vGood oGood).verifierCalled = false ∧
    (handle envEnforce ⟨"POST", "/_scopeblind/health", [("X-Proof", "tok")]⟩ vGood oGood).originRequest = none :=
  ⟨(health_bypass envEnforce ⟨"POST", "/_scopeblind/health", [("X-Proof", "tok")]⟩ vGood oGood (by decide) rfl).2.1,
   (health_bypass envEnforce ⟨"POST", "/_scopeblind/health", [("X-Proof", "tok")]⟩ vGood oGood (by decide) rfl).2.2.2⟩

/-- C4 counterexample: a GET to /_scopeblind/health has its method
outside the default protected set, yet the gateway answers the health
diagnostic directly, with no forward decision at all, contradicting the
claim that the decision is Forward verified=skipped regardless of the
request path. -/
theorem unprotected_skip_counterexample :
    needsProof (parseProtectedMethods envShadow.PROTECTED_METHODS) "GET" = false ∧
    (handle envShadow ⟨"GET", "/_scopeblind/health", []⟩ vGood oGood).decision = none ∧
    (handle envShadow ⟨"GET", "/_scopeblind/health", []⟩ vGood oGood).originRequest = none := by
  decide

/-- C4 (amended): for every non-OPTIONS request not addressed to the
health path whose method is outside the configured protected set, the
decision is Forward with verified=skipped, regardless of mode, proof
presence, verifier availability and path; no verifier call and no
telemetry occur, and the outbound request carries
X-ScopeBlind-Verified: skipped. -/
theorem unprotected_forwarded_skipped (env : Env) (req : Request)
    (v : VerifierResponse) (o : FetchOutcome)
    (h1 : ¬ req.method = "OPTIONS") (h2 : ¬ req.pathname = "/_scopeblind/health")
    (h3 : needsProof (parseProtectedMethods env.PROTECTED_METHODS) req.method = false) :
    (handle env req v o).decision =
      some (.Forward [("X-ScopeBlind-Mode", modeStr (isShadow env)),
                      ("X-ScopeBlind-Verified", "skipped")]) ∧
    (handle env req v o).verifierCalled = false ∧
    (handle env req v o).telemetry = [] ∧
    (handle env req v o).originRequest =
      some (outboundOf req [("X-ScopeBlind-Mode", modeStr (isShadow env)),
                            ("X-ScopeBlind-Verified", "skipped")]) ∧
    hget (outboundOf req [("X-ScopeBlind-Mode", modeStr (isShadow env)),
                          ("X-ScopeBlind-Verified", "skipped")]).headers
      "X-ScopeBlind-Verified" = some "skipped" := by
  refine ⟨?_, ?_, ?_, ?_, ?_⟩
  · simp [handle, h1, h2, h3]
  · simp [handle, h1, h2, h3]
  · simp [handle, h1, h2, h3]
  · simp [handle, h1, h2, h3, forwardToOrigin]
  · unfold outboundOf
    rw [hget_forwardHeaders, if_neg (by decide)]
    simp [List.find?, keyMatches, lowerStr]

/-- C4 witness: an unprotected GET with a proof header, enforce mode and
an unreachable verifier is still forwarded with verified=skipped. -/
theorem unprotected_forwarded_skipped_witness :
    (handle envEnforce ⟨"GET", "/api/items", [("X-Proof", "tok")]⟩ vDown (.err "down")).decision =
      some (.Forward [("X-ScopeBlind-Mode", modeStr (isShadow envEnforce)),
                      ("X-ScopeBlind-Verified", "skipped")]) :=
  (unprotected_forwarded_skipped envEnforce ⟨"GET", "/api/items", [("X-Proof", "tok")]⟩
    vDown (.err "down") (by decide) (by decide) (by decide)).1

/-- C6: whenever the gateway forwards and the origin fetch throws, the
response is 502 upstream_error with the CORS headers, for every
environment: neither the mode flag nor the fallback policy changes it. -/
theorem origin_failure_502 (env : Env) (req : Request) (v : VerifierResponse)
    (msg : String) (h : ¬ (handle env req v (.err msg)).originRequest = none) :
    (handle env req v (.err msg)).response =
      ⟨502, corsHeaders req, .errorJson "upstream_error" "Failed to reach backend." none⟩ := by
  rcases handle_cases env req v (.err msg) with hc | hc
  · exact absurd hc h
  · rw [hc.2]
    rfl

/-- C6 witness: enforce mode with fallback closed still answers 502
upstream_error when the origin is down. -/
theorem origin_failure_502_witness :
    (handle envClosed reqProof vGood (.err "connection refused")).response =
      ⟨502, corsHeaders reqProof, .errorJson "upstream_error" "Failed to reach backend." none⟩ :=
  origin_failure_502 envClosed reqProof vGood "connection refused" (by decide)

/-- C10: the shadow-mode flag is the exact comparison SHADOW_MODE="true",
observable on the protected no-proof branch (401 exactly when the flag is
anything else); the closed-fallback 503 on the verifier-unreachable
branch applies exactly when FALLBACK_MODE="closed" and the mode is
enforce, every other combination forwarding with fallback-allow. -/
theorem flag_exact_strings (env : Env) (req : Request) (o : FetchOutcome) :
    (isShadow env = true ↔ env.SHADOW_MODE = "true") ∧
    (¬ req.method = "OPTIONS" → ¬ req.pathname = "/_scopeblind/health" →
      needsProof (parseProtectedMethods env.PROTECTED_METHODS) req.method = true →
      strTruthy (proofOf req) = false →
      ∀ v : VerifierResponse,
        (handle env req v o).decision =
          some (if env.SHADOW_MODE = "true" then
                  .Forward [("X-ScopeBlind-Mode", "shadow"),
                            ("X-ScopeBlind-Verified", "missing"),
                            ("X-ScopeBlind-Action", "would-block")]
                else .Reject 401 "proof_required" none)) ∧
    (¬ req.method = "OPTIONS" → ¬ req.pathname = "/_scopeblind/health" →
      needsProof (parseProtectedMethods env.PROTECTED_METHODS) req.method = true →
      strTruthy (proofOf req) = true →
      ∀ msg : String,
        (handle env req (.netFail msg) o).decision =
          some (if env.FALLBACK_MODE = "closed" ∧ ¬ env.SHADOW_MODE = "true" then
                  .Reject 503 "verification_unavailable" none
                else .Forward [("X-ScopeBlind-Mode", modeStr (isShadow env)),
                               ("X-ScopeBlind-Verified", "error"),
                               ("X-ScopeBlind-Action", "fallback-allow")])) := by
  refine ⟨by simp [isShadow], ?_, ?_⟩
  · intro h1 h2 h3 h4 v
    by_cases c5 : env.SHADOW_MODE = "true"
    · have c5' : isShadow env = true := by simp [isShadow, c5]
      simp [handle, h1, h2, h3, h4, c5, c5']
    · have c5' : isShadow env = false := by simp [isShadow, c5]
      simp [handle, h1, h2, h3, h4, c5, c5']
  · intro h1 h2 h3 h4 msg
    by_cases c5 : env.SHADOW_MODE = "true"
    · have c5' : isShadow env = true := by simp [isShadow, c5]
      simp [handle, handleUnreachable, h1, h2, h3, h4, c5, c5']
    · have c5' : isShadow env = false := by simp [isShadow, c5]
      by_cases c6 : env.FALLBACK_MODE = "closed"
      · simp [handle, handleUnreachable, h1, h2, h3, h4, c5, c5', c6]
      · simp [handle, handleUnreachable, h1, h2, h3, h4, c5, c5', c6]

/-- C10 witness: the flag theorem applied with a misspelled shadow flag
value behaves as enforce with open fallback. -/
theorem flag_exact_strings_witness :
    (handle ⟨"https://origin.example", "https://verify.example/v", "True", "", "Closed"⟩
        reqProof (.netFail "boom") oGood).decision =
      some (.Forward [("X-ScopeBlind-Mode",
                       modeStr (isShadow ⟨"https://origin.example", "https://verify.example/v", "True", "", "Closed"⟩)),
                      ("X-ScopeBlind-Verified", "error"),
                      ("X-ScopeBlind-Action", "fallback-allow")]) := by
  have h := (flag_exact_strings
    ⟨"https://origin.example", "https://verify.example/v", "True", "", "Closed"⟩
    reqProof oGood).2.2 (by decide) (by decide) (by decide) (by decide) "boom"
  rw [h, if_neg (by decide)]

/-- Expected telemetry action tag of the protected branch taken. -/
def expectedAction (req : Request) (v : VerifierResponse) : String :=
  if !(strTruthy (proofOf req)) then "no_proof"
  else
    match v with
    | .netFail _ => "verifier_error"
    | .reply _ _ (.thrown _) => "verifier_error"
    | .reply ok _ (.parsed body) =>
        if !ok || !(truthy body.verified) then "verify_failed" else "verified"

/-- C7: a request that is intercepted (OPTIONS or health) or classified
unprotected emits no telemetry; a request that reaches the protected
branch emits exactly one event, whose action tag names the branch taken
(no_proof, verifier_error, verify_failed or verified). -/
theorem telemetry_exactly_once (env : Env) (req : Request)
    (v : VerifierResponse) (o : FetchOutcome) :
    ((req.method = "OPTIONS" ∨ req.pathname = "/_scopeblind/health" ∨
        needsProof (parseProtectedMethods env.PROTECTED_METHODS) req.method = false) →
      (handle env req v o).telemetry = []) ∧
    (¬ req.method = "OPTIONS" → ¬ req.pathname = "/_scopeblind/health" →
      needsProof (parseProtectedMethods env.PROTECTED_METHODS) req.method = true →
      (handle env req v o).telemetry.map TelemetryEvent.action = [expectedAction req v]) := by
  constructor
  · rintro (h | h | h)
    · simp [handle, h]
    · by_cases c1 : req.method = "OPTIONS" <;> simp [handle, c1, h]
    · by_cases c1 : req.method = "OPTIONS" <;>
        by_cases c2 : req.pathname = "/_scopeblind/health" <;>
          simp [handle, c1, c2, h]
  · intro h1 h2 h3
    by_cases c4 : strTruthy (proofOf req) = true
    case neg =>
      have c4' := Bool.eq_false_iff.mpr c4
      by_cases c5 : isShadow env = true
      · simp [handle, expectedAction, h1, h2, h3, c4', c5]
      · have c5' := Bool.eq_false_iff.mpr c5
        simp [handle, expectedAction, h1, h2, h3, c4', c5']
    case pos =>
      cases v with
      | netFail msg =>
        by_cases c6 : (env.FALLBACK_MODE == "closed" && !(isShadow env)) = true
        · simp [handle, handleUnreachable, expectedAction, h1, h2, h3, c4, c6]
        · have c6' := Bool.eq_false_iff.mpr c6
          simp [handle, handleUnreachable, expectedAction, h1, h2, h3, c4, c6']
      | reply ok st body =>
        cases body with
        | thrown msg =>
          by_cases c6 : (env.FALLBACK_MODE == "closed" && !(isShadow env)) = true
          · simp [handle, handleUnreachable, expectedAction, h1, h2, h3, c4, c6]
          · have c6' := Bool.eq_false_iff.mpr c6
            simp [handle, handleUnreachable, expectedAction, h1, h2, h3, c4, c6']
        | parsed b =>
          by_cases c7 : (!ok || !(truthy b.verified)) = true
          · by_cases c5 : isShadow env = true <;>
              simp_all [handle, expectedAction, h1, h2, h3, c4, c7]
          · have c7' := Bool.eq_false_iff.mpr c7
            simp [handle, expectedAction, h1, h2, h3, c4, c7']

/-- C7 witness: a protected request with a valid proof emits exactly the
verified event; the same environment on an OPTIONS request emits none. -/
theorem telemetry_exactly_once_witness :
    (handle envEnforce reqProof vGood oGood).telemetry.map TelemetryEvent.action = ["verified"] ∧
    (handle envEnforce ⟨"OPTIONS", "/api/items", []⟩ vGood oGood).telemetry = [] :=
  ⟨by
    have h := (telemetry_exactly_once envEnforce reqProof vGood oGood).2
      (by decide) (by decide) (by decide)
    rw [h]
    decide,
   (telemetry_exactly_once envEnforce ⟨"OPTIONS", "/api/items", []⟩ vGood oGood).1 (Or.inl rfl)⟩

/-- Decision table of spec section 4.3 in its amended form: the decision
is determined by mode, fallback policy, the verification outcome (absent
when no proof was sent) and additionally the raw error field of the
verifier body, which the two Rejected rows surface instead of the
defaulted outcome reason. -/
def decideTable (shadow fallbackClosed : Bool) (outcome : Option Outcome)
    (rawError : Option String) : Decision :=
  match outcome with
  | none =>
      if shadow then
        .Forward [("X-ScopeBlind-Mode", "shadow"), ("X-ScopeBlind-Verified", "missing"),
                  ("X-ScopeBlind-Action", "would-block")]
      else .Reject 401 "proof_required" none
  | some (.Rejected _) =>
      if shadow then
        .Forward [("X-ScopeBlind-Mode", "shadow"), ("X-ScopeBlind-Verified", "failed"),
                  ("X-ScopeBlind-Action", "would-block"),
                  ("X-ScopeBlind-Error", jsOr rawError "verification_failed")]
      else .Reject 429 "rate_limited" rawError
  | some (.Unreachable _) =>
      if fallbackClosed && !shadow then .Reject 503 "verification_unavailable" none
      else
        .Forward [("X-ScopeBlind-Mode", modeStr shadow), ("X-ScopeBlind-Verified", "error"),
                  ("X-ScopeBlind-Action", "fallback-allow")]
  | some (.Verified rem) =>
      .Forward [("X-ScopeBlind-Mode", modeStr shadow), ("X-ScopeBlind-Verified", "true"),
                ("X-ScopeBlind-Remaining", remainingStr rem)]

/-- C1 counterexample: two verifier replies with the same verification
outcome (Rejected with reason "unknown") but different raw error fields
produce different decisions in observe mode, so the decision is not a
function of (mode, fallback policy, proof-present, outcome) alone, and
the observe-mode forward does not carry the outcome reason (it carries
"verification_failed" where the outcome reason is "unknown"). -/
theorem policy_table_counterexample :
    mapVerifierResponse vFail = mapVerifierResponse vFailNamed ∧
    ¬ (handle envShadow reqProof vFail oGood).decision =
        (handle envShadow reqProof vFailNamed oGood).decision := by
  decide

/-- C1 (amended): for every protected request the decision equals the
six-row table applied to (mode, fallback policy, the outcome when a
proof is present, and the raw body error field). -/
theorem policy_table (env : Env) (req : Request) (v : VerifierResponse)
    (o : FetchOutcome) (h1 : ¬ req.method = "OPTIONS")
    (h2 : ¬ req.pathname = "/_scopeblind/health")
    (h3 : needsProof (parseProtectedMethods env.PROTECTED_METHODS) req.method = true) :
    (handle env req v o).decision =
      some (decideTable (isShadow env) (env.FALLBACK_MODE == "closed")
        (if strTruthy (proofOf req) = true then some (mapVerifierResponse v) else none)
        (rawBodyError v)) := by
  by_cases c4 : strTruthy (proofOf req) = true
  case neg =>
    have c4' := Bool.eq_false_iff.mpr c4
    by_cases c5 : isShadow env = true
    · simp [handle, decideTable, h1, h2, h3, c4', c5]
    · have c5' := Bool.eq_false_iff.mpr c5
      simp [handle, decideTable, h1, h2, h3, c4', c5']
  case pos =>
    cases v with
    | netFail msg =>
      by_cases c6 : (env.FALLBACK_MODE == "closed" && !(isShadow env)) = true
      · simp [handle, handleUnreachable, decideTable, mapVerifierResponse,
          rawBodyError, h1, h2, h3, c4, c6]
      · have c6' := Bool.eq_false_iff.mpr c6
        simp [handle, handleUnreachable, decideTable, mapVerifierResponse,
          rawBodyError, h1, h2, h3, c4, c6']
    | reply ok st body =>
      cases body with
      | thrown msg =>
        by_cases c6 : (env.FALLBACK_MODE == "closed" && !(isShadow env)) = true
        · simp [handle, handleUnreachable, decideTable, mapVerifierResponse,
            rawBodyError, h1, h2, h3, c4, c6]
        · have c6' := Bool.eq_false_iff.mpr c6
          simp [handle, handleUnreachable, decideTable, mapVerifierResponse,
            rawBodyError, h1, h2, h3, c4, c6']
      | parsed b =>
        by_cases c7 : (!ok || !(truthy b.verified)) = true
        · by_cases c5 : isShadow env = true <;>
            simp_all [handle, decideTable, mapVerifierResponse, rawBodyError,
              h1, h2, h3, c4, c7]
        · have c7' := Bool.eq_false_iff.mpr c7
          simp [handle, decideTable, mapVerifierResponse, rawBodyError,
            h1, h2, h3, c4, c7']

/-- C1 witness: the amended table applied to a verified reply under
enforce mode. -/
theorem policy_table_witness :
    (handle envEnforce reqProof vGood oGood).decision =
      some (decideTable (isShadow envEnforce) (envEnforce.FALLBACK_MODE == "closed")
        (if strTruthy (proofOf reqProof) = true then some (mapVerifierResponse vGood) else none)
        (rawBodyError vGood)) :=
  policy_table envEnforce reqProof vGood oGood (by decide) (by decide) (by decide)

/-- C2 counterexample: a body with verified false and an empty-string
error field is mapped to Rejected with reason "unknown", not to Rejected
with the (present) body error "". -/
theorem verifier_mapping_counterexample :
    mapVerifierResponse (.reply true 200 (.parsed ⟨some false, none, some ""⟩)) =
      .Rejected "unknown" ∧
    ¬ mapVerifierResponse (.reply true 200 (.parsed ⟨some false, none, some ""⟩)) =
      .Rejected "" := by
  decide

/-- C2 (amended): the verifier client maps HTTP success with verified
true to Verified carrying the remaining field; a body whose verified
field is false or absent to Rejected whose reason is the body error when
that is present and non-empty, and "unknown" when it is absent or empty;
and any network failure or unparseable body to Unreachable carrying the
failure message. -/
theorem verifier_mapping :
    (∀ (st : Nat) (b : VerifyResult), truthy b.verified = true →
      mapVerifierResponse (.reply true st (.parsed b)) = .Verified b.remaining) ∧
    (∀ (ok : Bool) (st : Nat) (b : VerifyResult), truthy b.verified = false →
      mapVerifierResponse (.reply ok st (.parsed b)) =
        .Rejected (match b.error with
          | some s => if s = "" then "unknown" else s
          | none => "unknown")) ∧
    (∀ msg : String, mapVerifierResponse (.netFail msg) = .Unreachable msg) ∧
    (∀ (ok : Bool) (st : Nat) (msg : String),
      mapVerifierResponse (.reply ok st (.thrown msg)) = .Unreachable msg) := by
  refine ⟨?_, ?_, fun msg => rfl, fun ok st msg => rfl⟩
  · intro st b h
    simp [mapVerifierResponse, h]
  · intro ok st b h
    simp only [mapVerifierResponse, h]
    cases b.error with
    | none => simp [jsOr]
    | some s => simp [jsOr]

/-- C2 witness: an HTTP-failure reply whose body has no verified field
and a named error is Rejected with that error as reason. -/
theorem verifier_mapping_witness :
    mapVerifierResponse (.reply false 429 (.parsed ⟨none, none, some "quota_exceeded"⟩)) =
      .Rejected "quota_exceeded" :=
  ((verifier_mapping).2.1 false 429 ⟨none, none, some "quota_exceeded"⟩ (by decide)).trans
    (by decide)

/-- C3 counterexample: with "PATCH" configured, a request whose method is
the lowercase "patch" is not classified as protected, although the claim
says the comparison is case-insensitive on the request method. -/
theorem classifier_counterexample :
    needsProof (parseProtectedMethods "PATCH") "patch" = false := by
  decide

/-- C3 (amended): the configured set is trimmed and uppercased at load
time, but the request method is compared by exact string equality against
that set: a method is classified protected exactly when it equals the
trimmed-uppercased form of some configured entry, so "PATCH" is protected
when "patch" is configured, while "patch" is never protected. -/
theorem classifier_exact_method (cfg m : String) :
    needsProof (parseProtectedMethods cfg) m = true ↔
      ∃ cs ∈ splitOnChar ',' (jsOrStr cfg "POST,PUT,DELETE,PATCH").data,
        String.mk ((trimChars cs).map Char.toUpper) = m := by
  unfold needsProof parseProtectedMethods
  rw [List.contains, List.elem_iff]
  simp [List.mem_map]

/-- C3 witness: the lowercase configured entry "patch" does protect the
uppercase method "PATCH". -/
theorem classifier_exact_method_witness :
    needsProof (parseProtectedMethods "patch") "PATCH" = true :=
  (classifier_exact_method "patch" "PATCH").mpr ⟨"patch".data, by decide, by decide⟩

/-- C5: outbound origin headers are exactly the inbound headers minus the
two proof-token header names plus every non-empty metadata header (the
last set value winning for a repeated name); every forwarded request has
both proof headers absent; and the empty-valued remaining metadata header
of a verified forward without a remaining quota is not added. -/
theorem forwarded_header_set :
    (∀ (hs : Headers) (extras : List (String × String)) (k : String),
      hget (forwardHeaders hs extras) k =
        if (keyMatches k "X-Proof" || keyMatches k "X-ScopeBlind-Proof") = true then none
        else
          match extras.reverse.find? (fun p => keyMatches p.1 k && p.2 != "") with
          | some p => some p.2
          | none => hget hs k) ∧
    (∀ (env : Env) (req : Request) (v : VerifierResponse) (o : FetchOutcome)
        (out : OutboundRequest),
      (handle env req v o).originRequest = some out →
      hget out.headers "X-Proof" = none ∧ hget out.headers "X-ScopeBlind-Proof" = none) ∧
    (∀ (hs : Headers) (m : String),
      hget (forwardHeaders hs
          [("X-ScopeBlind-Mode", m), ("X-ScopeBlind-Verified", "true"),
           ("X-ScopeBlind-Remaining", remainingStr none)]) "X-ScopeBlind-Remaining" =
        hget hs "X-ScopeBlind-Remaining") := by
  refine ⟨hget_forwardHeaders, ?_, ?_⟩
  · intro env req v o out h
    rcases handle_cases env req v o with hc | hc
    · rw [hc] at h
      cases h
    · obtain ⟨extras, hex⟩ := hc.1
      rw [hex] at h
      cases h
      constructor
      · rw [outboundOf, hget_forwardHeaders, if_pos (by decide)]
      · rw [outboundOf, hget_forwardHeaders, if_pos (by decide)]
  · intro hs m
    rw [hget_forwardHeaders, if_neg (by decide)]
    simp [List.find?, keyMatches, lowerStr, remainingStr]

/-- C5 witness: a forwarded request with inbound proof headers has them
stripped while the skip metadata is present. -/
theorem forwarded_header_set_witness :
    hget (outboundOf reqProof
        [("X-ScopeBlind-Mode", modeStr (isShadow envEnforce)),
         ("X-ScopeBlind-Verified", "true"),
         ("X-ScopeBlind-Remaining", remainingStr none)]).headers "X-Proof" = none ∧
    hget (outboundOf reqProof
        [("X-ScopeBlind-Mode", modeStr (isShadow envEnforce)),
         ("X-ScopeBlind-Verified", "true"),
         ("X-ScopeBlind-Remaining", remainingStr none)]).headers "X-ScopeBlind-Proof" = none :=
  forwarded_header_set.2.1 envEnforce reqProof vGood oGood
    (outboundOf reqProof
      [("X-ScopeBlind-Mode", modeStr (isShadow envEnforce)),
       ("X-ScopeBlind-Verified", "true"),
       ("X-ScopeBlind-Remaining", remainingStr none)]) (by decide)

end ScopeBlind
